import Mathlib

/-
Verification of the monitoring/alerting core of dipbot (src/main.py), a stock
market monitor bot. Prices and fractional changes are modelled as rationals;
the external market-data fetches and notification sends are modelled as
explicit outcome oracles in a tick environment. Logging is treated as
effect-free and omitted.
-/

namespace Dipbot

/-- One alert tier, from the ALERT_LEVELS entries of main.py. The source
field named "prefix" (the severity label shown in messages) is called
`label` here. -/
structure AlertLevel where
  threshold : ℚ
  emoji : String
  label : String
deriving DecidableEq

/-- ALERT_LEVELS with the default thresholds of main.py lines 32-48
(ALERT_THRESHOLD_1/2/3 defaults -0.01, -0.03, -0.06). -/
def ALERT_LEVELS : List AlertLevel :=
  [ { threshold := -1/100, emoji := "⚠️", label := "ALERT" },
    { threshold := -3/100, emoji := "🚨", label := "WARNING" },
    { threshold := -6/100, emoji := "🔥", label := "CRITICAL" } ]

/-- Default check interval in seconds (main.py line 51). -/
def CHECK_INTERVAL : Nat := 300

/-- Default morning update time (main.py line 54). -/
def MORNING_UPDATE_TIME : String := "09:15"

/-- Initial value of the global alerts_paused flag (main.py line 57). -/
def alerts_paused_init : Bool := false

/-- The stop_alerts handler's effect on the alerts_paused flag
(main.py line 102): unconditionally set to true. -/
def stop_alerts (_alerts_paused : Bool) : Bool := true

/-- The resume_alerts handler's effect on the alerts_paused flag
(main.py line 114): unconditionally set to false. -/
def resume_alerts (_alerts_paused : Bool) : Bool := false

/-- calculate_price_change of main.py lines 143-150: with fewer than two data
points return the insufficient-data signal (None triple); otherwise the last
element (iloc[-1]), the second-to-last element (iloc[-2]) and their relative
change. -/
def calculate_price_change (data : List ℚ) : Option (ℚ × ℚ × ℚ) :=
  if data.length < 2 then none
  else
    match data.getLast?, data.dropLast.getLast? with
    | some current_price, some previous_close =>
        some (current_price, previous_close,
              (current_price - previous_close) / previous_close)
    | _, _ => none

/-- The per-level condition of check_and_send_alert (main.py line 206):
(threshold > 0 and change >= threshold) or (threshold < 0 and change <= threshold). -/
def matchesLevel (price_change : ℚ) (level : AlertLevel) : Bool :=
  decide ((level.threshold > 0 ∧ price_change ≥ level.threshold) ∨
          (level.threshold < 0 ∧ price_change ≤ level.threshold))

/-- The tier-selection loop of check_and_send_alert (main.py lines 204-210):
scan reversed(ALERT_LEVELS) and stop at the first level whose directional
condition holds, returning none when no level matches. -/
def selectAlertLevel (levels : List AlertLevel) (price_change : ℚ) : Option AlertLevel :=
  levels.reverse.find? (matchesLevel price_change)

/-- A notification sent by the bot during a tick: the daily digest
(send_daily_status) or a tier alert for one index (send_alert). -/
inductive Notif where
  | digest (sensex_price nifty_price sensex_change nifty_change : ℚ)
  | alert (index_name : String) (level : AlertLevel)
          (current_price previous_close price_change : ℚ)
deriving DecidableEq

/-- External outcomes driving one check_prices tick: whether this job is the
morning (digest) job, the result of each yfinance fetch (error means the
provider raised), and whether the k-th send_message of the tick is delivered
(false means the send raised). -/
structure TickEnv where
  is_morning_update : Bool
  sensexFetch : Except Unit (List ℚ)
  niftyFetch : Except Unit (List ℚ)
  sendOk : Nat → Bool

/-- The mutable state visible during a tick: the global alerts_paused flag,
the notifications delivered so far this tick, and how many sends were
attempted. -/
structure TickSt where
  paused : Bool
  sent : List Notif
  sendCount : Nat
deriving DecidableEq

/-- One attempted send_message call: on success the notification is recorded;
on failure nothing is delivered and the boolean reports that the call raised. -/
def trySend (env : TickEnv) (st : TickSt) (n : Notif) : TickSt × Bool :=
  if env.sendOk st.sendCount then
    ({ st with sent := st.sent ++ [n], sendCount := st.sendCount + 1 }, true)
  else
    ({ st with sendCount := st.sendCount + 1 }, false)

/-- check_and_send_alert of main.py lines 196-210 for one index: select the
highest-severity matching level and, if one matched, attempt exactly one
alert send. The boolean is false when the send raised. -/
def check_and_send_alert (env : TickEnv) (st : TickSt) (index_name : String)
    (current_price previous_close price_change : ℚ) : TickSt × Bool :=
  match selectAlertLevel ALERT_LEVELS price_change with
  | some level =>
      trySend env st (Notif.alert index_name level current_price previous_close price_change)
  | none => (st, true)

/-- The morning-update branch of check_prices (main.py lines 178-182): on the
morning job, send the daily digest and only after a successful send reset the
alerts_paused flag to false. A failed digest send raises, so the reset and
the rest of the tick are skipped. -/
def morning_step (env : TickEnv) (st : TickSt) (sc nc sch nch : ℚ) : TickSt × Bool :=
  if env.is_morning_update then
    let r := trySend env st (Notif.digest sc nc sch nch)
    if r.2 then ({ r.1 with paused := false }, true) else (r.1, false)
  else (st, true)

/-- The alert branch of check_prices (main.py lines 185-191): when the (by
now possibly reset) flag is off, evaluate Sensex then Nifty; a raising alert
send aborts the rest of the tick. -/
def alerts_step (env : TickEnv) (st : TickSt)
    (sc sp sch nc np nch : ℚ) : TickSt × Bool :=
  if st.paused then (st, true)
  else
    let r := check_and_send_alert env st "Sensex" sc sp sch
    if r.2 = false then (r.1, false)
    else check_and_send_alert env r.1 "Nifty" nc np nch

/-- The body of check_prices inside its try block (main.py lines 156-191).
The boolean is true when the body ran to completion and false when it raised
(a fetch failure, a failed send, or the insufficient-data case: there the
logging f-string formats a None change with :.2% and raises before the
explicit None check, landing in the same skipped-tick outcome). The returned
state is the state at the moment of return or raise. -/
def check_prices_body (env : TickEnv) (alerts_paused : Bool) : TickSt × Bool :=
  let st0 : TickSt := { paused := alerts_paused, sent := [], sendCount := 0 }
  match env.sensexFetch, env.niftyFetch with
  | Except.ok sensex_data, Except.ok nifty_data =>
    match calculate_price_change sensex_data, calculate_price_change nifty_data with
    | some (sc, sp, sch), some (nc, np, nch) =>
      let r := morning_step env st0 sc nc sch nch
      if r.2 = false then (r.1, false)
      else alerts_step env r.1 sc sp sch nc np nch
    | _, _ => (st0, false)
  | _, _ => (st0, false)

/-- check_prices (main.py lines 152-194): the body wrapped in the
try/except that catches every exception, logs it and returns normally, so
the handler always yields the state reached by the body. -/
def check_prices (env : TickEnv) (alerts_paused : Bool) : TickSt :=
  (check_prices_body env alerts_paused).1

/-- The scheduler loop: run the check_prices handler on each scheduled tick
in turn, threading the alerts_paused flag and collecting each tick's
delivered notifications. -/
def run_scheduler : List TickEnv → Bool → Bool × List (List Notif)
  | [], p => (p, [])
  | env :: rest, p =>
    let st := check_prices env p
    let r := run_scheduler rest st.paused
    (r.1, st.sent :: r.2)

/-- The kind of trigger a job of the telegram job queue carries: run_daily
at a UTC time of day (in minutes past midnight), run_repeating at an
interval in seconds, or run_once. -/
inductive Sched where
  | daily (timeUTC : Nat)
  | repeating (interval : Nat)
  | once (whenAt : Nat)
deriving DecidableEq

/-- The data dict attached to a job; only the is_morning_update key matters
(absent keys read through dict.get default False). -/
structure JobData where
  is_morning_update : Bool
deriving DecidableEq

/-- One armed job of the job queue. -/
structure Job where
  sched : Sched
  data : Option JobData
deriving DecidableEq

/-- The removal test of update_morning_job (main.py line 315):
job.data and job.data.get of is_morning_update with default False. -/
def is_morning_job (j : Job) : Bool :=
  match j.data with
  | some d => d.is_morning_update
  | none => false

/-- ist_to_utc of main.py lines 298-303 reduced to the time of day it
produces: IST is the fixed offset UTC+5:30, so the UTC time of day in
minutes is the IST time of day minus 330 minutes, modulo one day. -/
def ist_to_utc (hh mm : Nat) : Nat :=
  (hh * 60 + mm + 24 * 60 - 330) % (24 * 60)

/-- update_morning_job of main.py lines 309-325: remove every job whose data
marks it as the morning update, then arm a new run_daily job at the
converted UTC time with is_morning_update set. -/
def update_morning_job (jobs : List Job) (hh mm : Nat) : List Job :=
  (jobs.filter fun j => ! is_morning_job j) ++
    [ { sched := Sched.daily (ist_to_utc hh mm),
        data := some { is_morning_update := true } } ]

/-- Fire instants of an armed daily trigger, in minutes since the epoch of
day 0: on day d it fires at d * 1440 + t. -/
def daily_fire_times (t day : Nat) : Nat := day * 1440 + t

/-- Modelled from the spec: the first fire of a newly armed daily trigger
(job_queue.run_daily of the bot framework, which is external to src/) is
today when the target time of day has not yet passed in the reference clock,
and tomorrow otherwise. -/
def first_fire_day (t nowTod today : Nat) : Nat :=
  if nowTod < t then today else today + 1

/-- Numeric value of a decimal digit character, none for a non-digit. -/
def digitVal (c : Char) : Option Nat :=
  if c.isDigit then some (c.toNat - 48) else none

/-- One numeric field of Python strptime: the directive %H compiles to the
regex alternation of 2[0-3], [0-1][0-9] and [0-9], and %M to [0-5][0-9] and
[0-9]; so a two-digit run is consumed exactly when its value stays within
the bound (23 for hours, 59 for minutes), otherwise one digit is consumed. -/
def takeField (bound : Nat) : List Char → Option (Nat × List Char)
  | [] => none
  | [c1] => (digitVal c1).map fun d => (d, [])
  | c1 :: c2 :: rest =>
    match digitVal c1, digitVal c2 with
    | some d1, some d2 =>
      if d1 * 10 + d2 ≤ bound then some (d1 * 10 + d2, rest)
      else some (d1, c2 :: rest)
    | some d1, none => some (d1, c2 :: rest)
    | none, _ => none

/-- The validation datetime.strptime(new_time, "%H:%M") of main.py line 341:
an hour field, a colon, a minute field, and no remaining text. -/
def strptime_HM (s : String) : Option (Nat × Nat) :=
  match takeField 23 s.toList with
  | some (hh, c :: rest1) =>
    if c = ':' then
      match takeField 59 rest1 with
      | some (mm, []) => some (hh, mm)
      | _ => none
    else none
  | _ => none

/-- The process-wide mutable configuration touched by the command handlers:
the alerts_paused flag, the MORNING_UPDATE_TIME string and the armed jobs. -/
structure BotState where
  alerts_paused : Bool
  morning_update_time : String
  jobs : List Job
deriving DecidableEq

/-- The reply produced by set_morning_time. -/
inductive SetTimeReply where
  | usage
  | timeSet (newTime : String)
  | invalidFormat
deriving DecidableEq

/-- set_morning_time of main.py lines 327-359: reject a missing or extra
argument with the usage reply; validate the time with strptime before any
assignment, so a ValueError leaves every global untouched; on success store
the new time and rebuild the morning job. -/
def set_morning_time (args : List String) (st : BotState) : BotState × SetTimeReply :=
  match args with
  | [new_time] =>
    match strptime_HM new_time with
    | some (hh, mm) =>
      let st1 : BotState := { st with morning_update_time := new_time }
      ({ st1 with jobs := update_morning_job st1.jobs hh mm },
        SetTimeReply.timeSet new_time)
    | none => (st, SetTimeReply.invalidFormat)
  | _ => (st, SetTimeReply.usage)

/-- The reply produced by the manual /check handler. -/
inductive ManualReply where
  | insufficient
  | prices (sensex_current sensex_change nifty_current nifty_change : ℚ)
  | errorReply
deriving DecidableEq

/-- manual_check of main.py lines 259-296: fetch both series, report the
prices, the insufficient-data reply, or (when anything raised) the error
reply; no global is ever assigned, so the bot state passes through
untouched in every branch. -/
def manual_check (sensexFetch niftyFetch : Except Unit (List ℚ))
    (st : BotState) : BotState × ManualReply :=
  match sensexFetch, niftyFetch with
  | Except.ok s, Except.ok n =>
    match calculate_price_change s, calculate_price_change n with
    | some (sc, _, sch), some (nc, _, nch) =>
        (st, ManualReply.prices sc sch nc nch)
    | _, _ => (st, ManualReply.insufficient)
  | _, _ => (st, ManualReply.errorReply)

/-- Whether all the conditions for the daily digest of a tick to actually
fire hold: the tick is the morning job, both fetched series have at least
two points, and the digest send (the tick's first send) is delivered. -/
def quotes_ok (env : TickEnv) : Bool :=
  match env.sensexFetch, env.niftyFetch with
  | Except.ok s, Except.ok n => decide (2 ≤ s.length) && decide (2 ≤ n.length)
  | _, _ => false

/-- The digest of a tick fires exactly when the tick is the morning job,
both quotes are available and the digest delivery succeeds. -/
def digest_fired (env : TickEnv) : Bool :=
  env.is_morning_update && quotes_ok env && env.sendOk 0

/-- With fewer than two price points calculate_price_change signals
insufficient data. -/
lemma calc_short (data : List ℚ) (h : data.length < 2) :
    calculate_price_change data = none := by
  simp [calculate_price_change, h]

/-- On a series ending in the two points previous_close, current,
calculate_price_change returns them with their relative change. -/
lemma calc_concat (l : List ℚ) (p c : ℚ) :
    calculate_price_change (l ++ [p, c]) = some (c, p, (c - p) / p) := by
  have h2 : l ++ [p, c] = (l ++ [p]) ++ [c] := by simp
  rw [h2, calculate_price_change]
  rw [if_neg (by simp)]
  rw [List.getLast?_concat, List.dropLast_concat, List.getLast?_concat]

/-- Every list with at least two elements splits off its last two. -/
lemma exists_concat_of_two_le (d : List ℚ) (h : 2 ≤ d.length) :
    ∃ l p c, d = l ++ [p, c] := by
  rcases hr : d.reverse with _ | ⟨c, _ | ⟨p, t⟩⟩
  · have := congrArg List.length hr
    simp only [List.length_reverse, List.length_nil] at this
    omega
  · have := congrArg List.length hr
    simp only [List.length_reverse, List.length_cons, List.length_nil] at this
    omega
  · refine ⟨t.reverse, p, c, ?_⟩
    have hd : d = d.reverse.reverse := (List.reverse_reverse d).symm
    rw [hd, hr]
    simp

/-- find? skips over a block of elements that all fail the test. -/
lemma find?_append_false {α : Type} (p : α → Bool) (l₁ l₂ : List α)
    (h : ∀ x ∈ l₁, p x = false) : (l₁ ++ l₂).find? p = l₂.find? p := by
  rw [List.find?_append, List.find?_eq_none.mpr fun x hx => by simp [h x hx]]
  rfl

/-- Filtering with a test after keeping only its failures yields nothing. -/
lemma filter_not_filter {α : Type} (p : α → Bool) (l : List α) :
    (l.filter fun a => ! p a).filter p = [] := by
  induction l with
  | nil => rfl
  | cons a t ih => cases hpa : p a <;> simp [List.filter_cons, hpa, ih]

/-- Filtering twice with the same test filters once. -/
lemma filter_idem {α : Type} (p : α → Bool) (l : List α) :
    (l.filter p).filter p = l.filter p := by
  induction l with
  | nil => rfl
  | cons a t ih => cases hpa : p a <;> simp [List.filter_cons, hpa, ih]

/-- A send attempt never changes the paused flag. -/
lemma trySend_paused (env : TickEnv) (st : TickSt) (n : Notif) :
    ((trySend env st n).1).paused = st.paused := by
  unfold trySend
  split <;> rfl

/-- Evaluating one index's alert never changes the paused flag. -/
lemma check_and_send_alert_paused (env : TickEnv) (st : TickSt)
    (index_name : String) (c p ch : ℚ) :
    ((check_and_send_alert env st index_name c p ch).1).paused = st.paused := by
  unfold check_and_send_alert
  cases hsel : selectAlertLevel ALERT_LEVELS ch
  · rfl
  · exact trySend_paused env st _

/-- The whole alert branch never changes the paused flag. -/
lemma alerts_step_paused (env : TickEnv) (st : TickSt)
    (sc sp sch nc np nch : ℚ) :
    ((alerts_step env st sc sp sch nc np nch).1).paused = st.paused := by
  unfold alerts_step
  by_cases hp : st.paused = true
  · simp [hp]
  · simp only [Bool.not_eq_true] at hp
    rw [hp]
    simp only [Bool.false_eq_true, if_false]
    rcases h1 : check_and_send_alert env st "Sensex" sc sp sch with ⟨st1, ok1⟩
    have hp1 : st1.paused = st.paused := by
      have h := check_and_send_alert_paused env st "Sensex" sc sp sch
      rw [h1] at h
      exact h
    cases ok1
    · simp [h1, hp1, hp]
    · have h2 := check_and_send_alert_paused env st1 "Nifty" nc np nch
      simp [h1, h2, hp1, hp]

/-- On the morning job with a delivered digest, the digest is recorded and
the paused flag is reset. -/
lemma morning_step_digest (env : TickEnv) (st : TickSt) (sc nc sch nch : ℚ)
    (hm : env.is_morning_update = true) (hsend : env.sendOk st.sendCount = true) :
    morning_step env st sc nc sch nch =
      ({ paused := false, sent := st.sent ++ [Notif.digest sc nc sch nch],
         sendCount := st.sendCount + 1 }, true) := by
  unfold morning_step trySend
  rw [hm, hsend]
  simp

/-- On the morning job with a failed digest delivery, the send raises:
nothing is delivered, the flag is untouched, and the tick aborts. -/
lemma morning_step_sendfail (env : TickEnv) (st : TickSt) (sc nc sch nch : ℚ)
    (hm : env.is_morning_update = true) (hsend : env.sendOk st.sendCount = false) :
    morning_step env st sc nc sch nch =
      ({ st with sendCount := st.sendCount + 1 }, false) := by
  unfold morning_step trySend
  rw [hm, hsend]
  simp

/-- Outside the morning job the digest branch does nothing. -/
lemma morning_step_not (env : TickEnv) (st : TickSt) (sc nc sch nch : ℚ)
    (hm : env.is_morning_update = false) :
    morning_step env st sc nc sch nch = (st, true) := by
  unfold morning_step
  rw [hm]
  simp

/-- C4: for every price series, the quote-delta computation returns the
insufficient-data signal when the series has fewer than 2 elements, and
otherwise returns the last element as current, the second-to-last as
previousClose and their relative change, as a pure function. -/
theorem C4_quote_delta :
    (∀ data : List ℚ, data.length < 2 → calculate_price_change data = none) ∧
    (∀ (l : List ℚ) (p c : ℚ),
      calculate_price_change (l ++ [p, c]) = some (c, p, (c - p) / p)) :=
  ⟨calc_short, calc_concat⟩

/-- Witness for C4 at the empty series and at the series 2, 3. -/
theorem C4_witness :
    calculate_price_change ([] : List ℚ) = none ∧
    calculate_price_change [(2 : ℚ), 3] = some (3, 2, (3 - 2) / 2) :=
  ⟨C4_quote_delta.1 [] (by decide), C4_quote_delta.2 [] 2 3⟩

/-- C1: the alert classifier scans the configured levels from the end of the
list (highest severity first, since the configured set is ordered with
magnitude ascending) and selects exactly the first level whose directional
condition holds, where a negative threshold matches change at or below it
and a positive threshold matches change at or above it; at most one level is
selected and none when no condition holds; with the default tiers a change
of -0.04 selects the -0.03 WARNING tier and -0.005 selects none. -/
theorem C1_classifier :
    (∀ (change : ℚ) (lv : AlertLevel),
      matchesLevel change lv = true ↔
        ((lv.threshold < 0 ∧ change ≤ lv.threshold) ∨
         (0 < lv.threshold ∧ lv.threshold ≤ change))) ∧
    (∀ (levels : List AlertLevel) (change : ℚ),
      selectAlertLevel levels change = none ↔
        ∀ lv ∈ levels, matchesLevel change lv = false) ∧
    (∀ (levels : List AlertLevel) (change : ℚ) (lv : AlertLevel),
      selectAlertLevel levels change = some lv →
        lv ∈ levels ∧ matchesLevel change lv = true) ∧
    (∀ (pre post : List AlertLevel) (lv : AlertLevel) (change : ℚ),
      matchesLevel change lv = true →
      (∀ l2 ∈ post, matchesLevel change l2 = false) →
      selectAlertLevel (pre ++ lv :: post) change = some lv) ∧
    selectAlertLevel ALERT_LEVELS (-4/100) =
      some { threshold := -3/100, emoji := "🚨", label := "WARNING" } ∧
    selectAlertLevel ALERT_LEVELS (-5/1000) = none := by
  have hc4 : matchesLevel (-4/100) { threshold := -6/100, emoji := "🔥", label := "CRITICAL" } = false := by
    norm_num [matchesLevel]
  have hw4 : matchesLevel (-4/100) { threshold := -3/100, emoji := "🚨", label := "WARNING" } = true := by
    norm_num [matchesLevel]
  have hc5 : matchesLevel (-5/1000) { threshold := -6/100, emoji := "🔥", label := "CRITICAL" } = false := by
    norm_num [matchesLevel]
  have hw5 : matchesLevel (-5/1000) { threshold := -3/100, emoji := "🚨", label := "WARNING" } = false := by
    norm_num [matchesLevel]
  have ha5 : matchesLevel (-5/1000) { threshold := -1/100, emoji := "⚠️", label := "ALERT" } = false := by
    norm_num [matchesLevel]
  refine ⟨?_, ?_, ?_, ?_,
    by simp [selectAlertLevel, ALERT_LEVELS, List.find?, hc4, hw4],
    by simp [selectAlertLevel, ALERT_LEVELS, List.find?, hc5, hw5, ha5]⟩
  · intro change lv
    simp only [matchesLevel, decide_eq_true_eq, ge_iff_le, gt_iff_lt]
    tauto
  · intro levels change
    unfold selectAlertLevel
    rw [List.find?_eq_none]
    constructor
    · intro h lv hm
      have := h lv (List.mem_reverse.mpr hm)
      simpa using this
    · intro h lv hm
      simp [h lv (List.mem_reverse.mp hm)]
  · intro levels change lv h
    exact ⟨List.mem_reverse.mp (List.mem_of_find?_eq_some h), List.find?_some h⟩
  · intro pre post lv change hlv hpost
    unfold selectAlertLevel
    rw [List.reverse_append, List.reverse_cons, List.append_assoc]
    rw [find?_append_false _ _ _ fun x hx => hpost x (List.mem_reverse.mp hx)]
    simp [List.find?, hlv]

/-- Witness for C1: with the default levels split around the WARNING tier
and a change of -0.04, the classifier selects WARNING. -/
theorem C1_witness :
    selectAlertLevel
      ([{ threshold := -1/100, emoji := "⚠️", label := "ALERT" }] ++
        { threshold := -3/100, emoji := "🚨", label := "WARNING" } ::
        [{ threshold := -6/100, emoji := "🔥", label := "CRITICAL" }]) (-4/100) =
      some { threshold := -3/100, emoji := "🚨", label := "WARNING" } :=
  C1_classifier.2.2.2.1
    [{ threshold := -1/100, emoji := "⚠️", label := "ALERT" }]
    [{ threshold := -6/100, emoji := "🔥", label := "CRITICAL" }]
    { threshold := -3/100, emoji := "🚨", label := "WARNING" }
    (-4/100) (by norm_num [matchesLevel])
    (by intro l2 hl2
        simp only [List.mem_singleton] at hl2
        subst hl2
        norm_num [matchesLevel])

/-- C9: under the default all-negative tier configuration no nonnegative
change selects a tier, so upward moves are never alerted by default. -/
theorem C9_no_upward_alerts :
    ∀ change : ℚ, 0 ≤ change → selectAlertLevel ALERT_LEVELS change = none := by
  intro ch h
  unfold selectAlertLevel
  rw [List.find?_eq_none]
  intro lv hlv
  simp [ALERT_LEVELS] at hlv
  rcases hlv with h1 | h1 | h1 <;> subst h1 <;>
    simp only [matchesLevel, decide_eq_true_eq, ge_iff_le, gt_iff_lt,
      Bool.not_eq_true] <;>
    norm_num <;> linarith

/-- Witness for C9 at a change of zero. -/
theorem C9_witness : selectAlertLevel ALERT_LEVELS 0 = none :=
  C9_no_upward_alerts 0 (by norm_num)

/-- C3: whenever either fetched series has fewer than 2 points, the tick is
skipped entirely: no digest and no alert is delivered for either symbol and
the paused flag is left unchanged. -/
theorem C3_insufficient_skip :
    ∀ (env : TickEnv) (p : Bool) (s n : List ℚ),
      env.sensexFetch = Except.ok s → env.niftyFetch = Except.ok n →
      (s.length < 2 ∨ n.length < 2) →
      check_prices env p = { paused := p, sent := [], sendCount := 0 } := by
  intro env p s n hs hn hlen
  unfold check_prices check_prices_body
  rcases hlen with h | h
  · simp [hs, hn, calc_short s h]
  · rcases hcs : calculate_price_change s with _ | ⟨⟨sc, sp, sch⟩⟩ <;>
      simp [hs, hn, hcs, calc_short n h]

/-- Witness for C3: a tick with a single Sensex data point delivers nothing
and leaves the flag as it was. -/
theorem C3_witness :
    check_prices
      { is_morning_update := true, sensexFetch := Except.ok [(1 : ℚ)],
        niftyFetch := Except.ok [(1 : ℚ), 2], sendOk := fun _ => true } false =
      { paused := false, sent := [], sendCount := 0 } :=
  C3_insufficient_skip _ false [(1 : ℚ)] [(1 : ℚ), 2] rfl rfl (Or.inl (by decide))

/-- C7: no error raised during a periodic check tick escapes the handler:
the handler returns the reached state normally even when the body raised,
and the scheduler loop processes every scheduled tick, whatever mix of
fetch failures and send failures the ticks meet. -/
theorem C7_no_error_escapes :
    (∀ (env : TickEnv) (p : Bool), (check_prices_body env p).2 = false →
      check_prices env p = (check_prices_body env p).1) ∧
    (∀ (envs : List TickEnv) (p : Bool),
      ((run_scheduler envs p).2).length = envs.length) := by
  constructor
  · intro env p _
    rfl
  · intro envs
    induction envs with
    | nil => intro p; rfl
    | cons e t ih =>
      intro p
      simp [run_scheduler, ih]

/-- Witness for C7 at a tick whose Sensex fetch raises: the body raises and
the handler still returns its state. -/
theorem C7_witness :
    check_prices
      { is_morning_update := false, sensexFetch := Except.error (),
        niftyFetch := Except.ok [(1 : ℚ), 2], sendOk := fun _ => true } true =
      (check_prices_body
        { is_morning_update := false, sensexFetch := Except.error (),
          niftyFetch := Except.ok [(1 : ℚ), 2], sendOk := fun _ => true } true).1 :=
  C7_no_error_escapes.1 _ true rfl

/-- C8: the manual on-demand check never mutates shared state: whether it
reports prices, insufficient data, or an error, the paused flag, the
configured digest time and the armed jobs are exactly as before. -/
theorem C8_manual_check_pure :
    ∀ (sensexFetch niftyFetch : Except Unit (List ℚ)) (st : BotState),
      (manual_check sensexFetch niftyFetch st).1 = st := by
  intro sf nf st
  unfold manual_check
  rcases sf with e | s
  · rfl
  · rcases nf with e | n
    · rfl
    · rcases hcs : calculate_price_change s with _ | ⟨⟨sc, sp, sch⟩⟩ <;>
        rcases hcn : calculate_price_change n with _ | ⟨⟨nc, np, nch⟩⟩ <;>
        simp [hcs, hcn]

/-- C2 fails as stated on the code: a digest tick skipped for insufficient
data does not reset the paused flag. Here a digest tick whose Sensex series
is empty leaves the gate paused. -/
theorem C2_counterexample :
    (check_prices
      { is_morning_update := true, sensexFetch := Except.ok [],
        niftyFetch := Except.ok [(1 : ℚ), 1], sendOk := fun _ => true }
      true).paused = true := rfl

/-- C2 amended: pause sets the flag, resume clears it, the gate starts
active, and a digest tick resets the flag to false exactly when its digest
actually fires (morning job, both series with at least two points, digest
delivery succeeds); the reset happens before alert evaluation, so the whole
tick then behaves as if it had started with the gate open; a digest tick
aborted earlier leaves the flag unchanged. -/
theorem C2_gate_reset :
    alerts_paused_init = false ∧
    (∀ p, stop_alerts p = true) ∧
    (∀ p, resume_alerts p = false) ∧
    (∀ (env : TickEnv) (p0 : Bool),
      (check_prices env p0).paused = if digest_fired env then false else p0) ∧
    (∀ (env : TickEnv) (p0 : Bool), digest_fired env = true →
      check_prices env p0 = check_prices env false) := by
  refine ⟨rfl, fun _ => rfl, fun _ => rfl, ?_, ?_⟩
  · intro env p0
    rcases hsf : env.sensexFetch with e | s
    · unfold check_prices check_prices_body digest_fired quotes_ok
      simp [hsf]
    · rcases hnf : env.niftyFetch with e | n
      · unfold check_prices check_prices_body digest_fired quotes_ok
        simp [hsf, hnf]
      · by_cases hs2 : 2 ≤ s.length
        · by_cases hn2 : 2 ≤ n.length
          · obtain ⟨ls, sp, sc, rfl⟩ := exists_concat_of_two_le s hs2
            obtain ⟨ln, np, nc, rfl⟩ := exists_concat_of_two_le n hn2
            have hdf : digest_fired env =
                (env.is_morning_update && env.sendOk 0) := by
              simp [digest_fired, quotes_ok, hsf, hnf, hs2, hn2]
            unfold check_prices check_prices_body
            by_cases hm : env.is_morning_update = true
            · by_cases hsend : env.sendOk 0 = true
              · have hms := morning_step_digest env
                  { paused := p0, sent := [], sendCount := 0 }
                  sc nc ((sc - sp) / sp) ((nc - np) / np) hm hsend
                simp [hsf, hnf, calc_concat, hms, alerts_step_paused,
                  hdf, hm, hsend]
              · simp only [Bool.not_eq_true] at hsend
                have hms := morning_step_sendfail env
                  { paused := p0, sent := [], sendCount := 0 }
                  sc nc ((sc - sp) / sp) ((nc - np) / np) hm hsend
                simp [hsf, hnf, calc_concat, hms, hdf, hm, hsend]
            · simp only [Bool.not_eq_true] at hm
              have hms := morning_step_not env
                { paused := p0, sent := [], sendCount := 0 }
                sc nc ((sc - sp) / sp) ((nc - np) / np) hm
              simp [hsf, hnf, calc_concat, hms, alerts_step_paused, hdf, hm]
          · have hlt : n.length < 2 := by omega
            have hdf : digest_fired env = false := by
              have hdec : (2 ≤ n.length) = False := eq_false (by omega)
              simp [digest_fired, quotes_ok, hsf, hnf, hdec]
            unfold check_prices check_prices_body
            rcases hcs : calculate_price_change s with _ | ⟨⟨sc, sp, sch⟩⟩ <;>
              simp [hsf, hnf, hcs, calc_short n hlt, hdf]
        · have hlt : s.length < 2 := by omega
          have hdf : digest_fired env = false := by
            have hdec : (2 ≤ s.length) = False := eq_false (by omega)
            simp [digest_fired, quotes_ok, hsf, hnf, hdec]
          unfold check_prices check_prices_body
          simp [hsf, hnf, calc_short s hlt, hdf]
  · intro env p0 hdf
    simp only [digest_fired, Bool.and_eq_true] at hdf
    obtain ⟨⟨hm, hq⟩, hsend⟩ := hdf
    rcases hsf : env.sensexFetch with e | s
    · unfold quotes_ok at hq
      rw [hsf] at hq
      simp at hq
    · rcases hnf : env.niftyFetch with e | n
      · unfold quotes_ok at hq
        rw [hsf, hnf] at hq
        simp at hq
      · unfold quotes_ok at hq
        rw [hsf, hnf] at hq
        simp only [Bool.and_eq_true, decide_eq_true_eq] at hq
        obtain ⟨hs2, hn2⟩ := hq
        obtain ⟨ls, sp, sc, rfl⟩ := exists_concat_of_two_le s hs2
        obtain ⟨ln, np, nc, rfl⟩ := exists_concat_of_two_le n hn2
        have hms : ∀ pz : Bool,
            morning_step env { paused := pz, sent := [], sendCount := 0 }
              sc nc ((sc - sp) / sp) ((nc - np) / np) =
            ({ paused := false,
               sent := [Notif.digest sc nc ((sc - sp) / sp) ((nc - np) / np)],
               sendCount := 1 }, true) := by
          intro pz
          rw [morning_step_digest env
            { paused := pz, sent := [], sendCount := 0 }
            sc nc ((sc - sp) / sp) ((nc - np) / np) hm hsend]
          simp
        unfold check_prices check_prices_body
        simp [hsf, hnf, calc_concat, hms]

/-- Witness for C2 at a digest tick with two points per series and a
delivered digest: the tick behaves the same whether the gate was paused or
open. -/
theorem C2_witness :
    check_prices
      { is_morning_update := true, sensexFetch := Except.ok [(1 : ℚ), 2],
        niftyFetch := Except.ok [(3 : ℚ), 4], sendOk := fun _ => true } true =
    check_prices
      { is_morning_update := true, sensexFetch := Except.ok [(1 : ℚ), 2],
        niftyFetch := Except.ok [(3 : ℚ), 4], sendOk := fun _ => true } false :=
  C2_gate_reset.2.2.2.2 _ true rfl

/-- C5: after one reconfiguration exactly one digest trigger is armed, at
the newly converted time, every previously armed digest trigger having been
retracted; and (with the once-daily trigger semantics of the framework's
run_daily, modelled from the spec) the new trigger's first fire is the
earliest day not before today whose fire instant is still in the future:
today when the converted time has not yet passed, tomorrow otherwise, so
the single armed trigger fires at most once per day. -/
theorem C5_reconfigure :
    ∀ (jobs : List Job) (hh mm : Nat),
      ((update_morning_job jobs hh mm).filter is_morning_job =
        [{ sched := Sched.daily (ist_to_utc hh mm),
           data := some { is_morning_update := true } }]) ∧
      (∀ nowTod today : Nat, nowTod < 1440 →
        today ≤ first_fire_day (ist_to_utc hh mm) nowTod today ∧
        today * 1440 + nowTod <
          daily_fire_times (ist_to_utc hh mm)
            (first_fire_day (ist_to_utc hh mm) nowTod today) ∧
        ∀ d2, today ≤ d2 →
          today * 1440 + nowTod < daily_fire_times (ist_to_utc hh mm) d2 →
          first_fire_day (ist_to_utc hh mm) nowTod today ≤ d2) := by
  intro jobs hh mm
  constructor
  · unfold update_morning_job
    rw [List.filter_append, filter_not_filter]
    simp [is_morning_job]
  · intro nowTod today hnow
    have ht : ist_to_utc hh mm < 1440 := Nat.mod_lt _ (by norm_num)
    unfold first_fire_day daily_fire_times
    by_cases hlt : nowTod < ist_to_utc hh mm
    · rw [if_pos hlt]
      exact ⟨le_refl _, by omega, fun d2 h1 _ => h1⟩
    · rw [if_neg hlt]
      exact ⟨by omega, by omega, fun d2 h1 h2 => by omega⟩

/-- Witness for C5: reconfiguring a queue holding the periodic check job and
an old morning job to 09:15 IST leaves exactly the new daily job among the
morning jobs, and at 100 minutes past midnight UTC on day 600 the first
fire of the new trigger is still ahead of the clock. -/
theorem C5_witness :
    ((update_morning_job
        [ { sched := Sched.repeating 300, data := some { is_morning_update := false } },
          { sched := Sched.daily 225, data := some { is_morning_update := true } } ]
        9 15).filter is_morning_job =
      [{ sched := Sched.daily (ist_to_utc 9 15),
         data := some { is_morning_update := true } }]) ∧
    600 * 1440 + 100 <
      daily_fire_times (ist_to_utc 9 15) (first_fire_day (ist_to_utc 9 15) 100 600) :=
  ⟨(C5_reconfigure
      [ { sched := Sched.repeating 300, data := some { is_morning_update := false } },
        { sched := Sched.daily 225, data := some { is_morning_update := true } } ]
      9 15).1,
   ((C5_reconfigure [] 9 15).2 100 600 (by decide)).2.1⟩

/-- C6: a digest-time input rejected by the HH:MM validation leads to a
synchronous descriptive error reply and mutates nothing: the configured
time and the armed jobs are exactly what they were. -/
theorem C6_invalid_time_rejected :
    ∀ (s : String) (st : BotState), strptime_HM s = none →
      set_morning_time [s] st = (st, SetTimeReply.invalidFormat) := by
  intro s st h
  unfold set_morning_time
  simp [h]

/-- Witness for C6 at the malformed input abc. -/
theorem C6_witness :
    set_morning_time ["abc"]
      { alerts_paused := false, morning_update_time := "09:15", jobs := [] } =
      ({ alerts_paused := false, morning_update_time := "09:15", jobs := [] },
        SetTimeReply.invalidFormat) :=
  C6_invalid_time_rejected "abc" _ (by decide)

/-- C10: reconfiguring the digest time removes only jobs marked as morning
updates: the jobs not so marked are preserved exactly, and in particular
any armed job (such as the repeating periodic check with its original
interval) whose data does not mark it as a morning update stays armed. -/
theorem C10_check_job_preserved :
    ∀ (jobs : List Job) (hh mm : Nat),
      ((update_morning_job jobs hh mm).filter (fun j => ! is_morning_job j) =
        jobs.filter fun j => ! is_morning_job j) ∧
      (∀ j : Job, j ∈ jobs → is_morning_job j = false →
        j ∈ update_morning_job jobs hh mm) := by
  intro jobs hh mm
  constructor
  · unfold update_morning_job
    rw [List.filter_append, filter_idem]
    simp [is_morning_job]
  · intro j hj hm
    unfold update_morning_job
    exact List.mem_append_left _ (List.mem_filter.mpr ⟨hj, by simp [hm]⟩)

/-- Witness for C10: the periodic check job survives a reconfiguration. -/
theorem C10_witness :
    ({ sched := Sched.repeating 300, data := some { is_morning_update := false } } : Job) ∈
      update_morning_job
        [ { sched := Sched.repeating 300, data := some { is_morning_update := false } } ]
        10 0 :=
  (C10_check_job_preserved
    [ { sched := Sched.repeating 300, data := some { is_morning_update := false } } ]
    10 0).2 _ (by simp) rfl

end Dipbot
